import Mathlib

/-!
# Verification of the streamdeck-ui ↔ Material Deck bridge

A shallow embedding of the bridge layer of the repository
(`bridge.py`, `deck_listener.py`): the coordinate translator, the
Material Deck message handlers, the button-state mutations, and the
device-event listener's read loop.  Python dictionaries parsed from
JSON are modelled by an inductive `JVal` type whose objects are
ordered association lists (Python 3.7+ dicts preserve insertion
order); the streamdeck-ui collaborator state (`deck_api.state` /
`_button_state` / per-button setters) is modelled as a total map from
(page, button index) to a button record, where a slot absent from the
underlying dict corresponds to the default record; Python exceptions
are modelled by `Except`/error components; the global module state
(`_output_queue`, `_initialized`, the image-cache directory contents)
is threaded explicitly.
-/

namespace MdBridge

/-- A JSON value as produced by `json.loads`.  Objects are ordered
association lists, matching Python dict insertion order. -/
inductive JVal where
  | jnull
  | jbool (b : Bool)
  | jnum (n : Int)
  | jstr (s : String)
  | jarr (elems : List JVal)
  | jobj (fields : List (String × JVal))
deriving Repr

mutual

/-- Structural equality of JSON values: the model of Python `==` on the
values `json.loads` produces. -/
def jvalBeq : JVal → JVal → Bool
  | .jnull, .jnull => true
  | .jbool a, .jbool b => a == b
  | .jnum a, .jnum b => a == b
  | .jstr a, .jstr b => a == b
  | .jarr a, .jarr b => jvalBeqList a b
  | .jobj a, .jobj b => jvalBeqFields a b
  | _, _ => false

def jvalBeqList : List JVal → List JVal → Bool
  | [], [] => true
  | a :: as, b :: bs => jvalBeq a b && jvalBeqList as bs
  | _, _ => false

def jvalBeqFields : List (String × JVal) → List (String × JVal) → Bool
  | [], [] => true
  | (k, v) :: as, (l, w) :: bs => k == l && jvalBeq v w && jvalBeqFields as bs
  | _, _ => false

end

instance : BEq JVal := ⟨jvalBeq⟩

/-- Python `dict` lookup on an association-list object (first binding wins;
the model never creates duplicate keys). -/
def dictLookup (d : List (String × JVal)) (k : String) : Option JVal :=
  (d.find? (fun e => e.1 = k)).map (·.2)

/-- Python `d[k] = v`: update the existing binding in place (keeping its
position) or append a new binding at the end, as dicts do. -/
def dictSet (d : List (String × JVal)) (k : String) (v : JVal) : List (String × JVal) :=
  if d.any (fun e => e.1 = k) then d.map (fun e => if e.1 = k then (k, v) else e)
  else d ++ [(k, v)]

/-- Python `d.get(k)`: `None` (here `jnull`) when the key is absent. -/
def dget (d : List (String × JVal)) (k : String) : JVal :=
  (dictLookup d k).getD .jnull

mutual

/-- `json.dumps` with the default separators `", "` and `": "`,
restricted to the payloads the bridge produces (keys and string values
that need no escaping). -/
def jsonDumps : JVal → String
  | .jnull => "null"
  | .jbool true => "true"
  | .jbool false => "false"
  | .jnum n => toString n
  | .jstr s => "\"" ++ s ++ "\""
  | .jarr xs => "[" ++ jsonDumpsList xs ++ "]"
  | .jobj fields => "\x7b" ++ jsonDumpsFields fields ++ "\x7d"

def jsonDumpsList : List JVal → String
  | [] => ""
  | [x] => jsonDumps x
  | x :: y :: xs => jsonDumps x ++ ", " ++ jsonDumpsList (y :: xs)

def jsonDumpsFields : List (String × JVal) → String
  | [] => ""
  | [(k, v)] => "\"" ++ k ++ "\": " ++ jsonDumps v
  | (k, v) :: f :: fs => "\"" ++ k ++ "\": " ++ jsonDumps v ++ ", " ++ jsonDumpsFields (f :: fs)

end

/-- Python `f'...{x}...'` string conversion for the JSON values that can
reach `_get_path_from_image_id` (the protocol sends string ids; containers
are approximated by their dump, a case the protocol never produces). -/
def pyFStr : JVal → String
  | .jstr s => s
  | .jnum n => toString n
  | .jbool true => "True"
  | .jbool false => "False"
  | .jnull => "None"
  | v => jsonDumps v

/-! ## Module constants (bridge.py lines 17-24) -/

def CONNECTED_PAYLOAD : String :=
  jsonDumps (.jobj [("target", .jstr "MD"), ("type", .jstr "connected"), ("data", .jstr "SD")])

def INITIALIZE_PAYLOAD : String :=
  jsonDumps (.jobj [("source", .jstr "SD"), ("type", .jstr "version"), ("version", .jstr "1.4.2")])

/-- `IMAGE_CACHE_PATH`; the home-directory prefix is irrelevant to the
claims, only the determinism of the path matters. -/
def IMAGE_CACHE_PATH : String := "~/.stream-deck-ui-md-bridge/image_cache"

def MATERIAL_FOUNDRY_IMAGE : String := "~/.stream-deck-ui-md-bridge/MaterialFoundry512x512.png"

def DECK_COLUMNS : Int := 8

def DECK_ROWS : Int := 4

/-! ## Coordinate translator (bridge.py lines 283-292) -/

/-- `_to_context(button_index, page)` -/
def to_context (button_index page : Int) : Int :=
  button_index + page * DECK_COLUMNS * DECK_ROWS

/-- `_to_button_index(context, page)` -/
def to_button_index (context page : Int) : Int :=
  context - page * DECK_COLUMNS * DECK_ROWS

/-- `_to_page(context)`: Python `int(context / 32)` truncates the true
quotient toward zero, which is `Int.div`. -/
def to_page (context : Int) : Int :=
  Int.tdiv context (DECK_ROWS * DECK_COLUMNS)

/-! ## Python exceptions reaching the bridge code -/

/-- The exceptions the modelled code can raise: `KeyError` from a `d[k]`
subscript, `TypeError` from using a non-numeric JSON value as a number
(or a non-object as a dict), and `URLError`/`OSError` from
`urllib.request.urlopen` or the file write in `_handle_set_image`. -/
inductive PyErr where
  | keyError (k : String)
  | typeError
  | urlError
deriving Repr, DecidableEq

/-- Python `d[k]` on a dict. -/
def objIndex (d : List (String × JVal)) (k : String) : Except PyErr JVal :=
  match dictLookup d k with
  | some v => .ok v
  | none => .error (.keyError k)

/-- Python `v[k]` on a JSON value: raises unless `v` is an object. -/
def jIndex (v : JVal) (k : String) : Except PyErr JVal :=
  match v with
  | .jobj fields => objIndex fields k
  | _ => .error .typeError

/-- Using a JSON value as a number (`value / 32` in `_to_page`): Python
`bool` is an `int`, every other non-numeric value raises `TypeError`. -/
def asInt : JVal → Except PyErr Int
  | .jnum n => .ok n
  | .jbool b => .ok (if b then 1 else 0)
  | _ => .error .typeError

/-- Using a JSON value where a `str` is required (`urlopen(url)`). -/
def asStr : JVal → Except PyErr String
  | .jstr s => .ok s
  | _ => .error .typeError

/-! ## Image-cache filesystem model -/

/-- A file visible in the image cache: either fully written, or the
partial (empty or truncated) file that `open(path, 'wb')` leaves behind
when the transfer fails before completion. -/
inductive FileContent where
  | partialFile
  | fullFile (bytes : String)
deriving Repr, DecidableEq

/-- The visible files of the image-cache directory, as path/content pairs. -/
def FS : Type := List (String × FileContent)

def fsExists (fs : FS) (p : String) : Bool :=
  List.any fs (fun e => e.1 = p)

def fsLookup (fs : FS) (p : String) : Option FileContent :=
  (List.find? (fun e => e.1 = p) fs).map (·.2)

def fsPut (fs : FS) (p : String) (c : FileContent) : FS :=
  (p, c) :: List.filter (fun e => ¬ e.1 = p) fs

/-- Outcome of `urlopen(url)` followed by `response.read()` inside
`_handle_set_image`: `connectFail` models `urlopen` itself raising
(before the output file is opened), `readFail` models
`response.read()` or the write raising after `open(cache_path, 'wb')`
has already created the file, `ok` is a complete transfer. -/
inductive FetchResult where
  | connectFail
  | readFail
  | ok (bytes : String)
deriving Repr, DecidableEq

/-! ## Button state (streamdeck-ui collaborator + bridge overlay) -/

/-- The `material_deck` entry's `init_data` dict as the bridge creates it
(`md_action_changed`, bridge.py lines 169-178): an `event` name, the
`payload.settings` dict (seeded with the display flags), and the
`action` key, absent until first assigned. -/
structure InitData where
  event : String
  payload_settings : List (String × JVal)
  action : Option String
deriving Repr

/-- The `material_deck` dict stored inside a button's state: both keys
are optional because `setdefault` creates the dict empty. -/
structure MDInfo where
  init_data : Option InitData
  action_settings : Option (List (String × JVal))
deriving Repr

/-- Truthiness of the `material_deck` dict (`if md_info:` in
`key_up_callback`): an empty dict is falsy. -/
def MDInfo.truthy (md : MDInfo) : Bool :=
  md.init_data.isSome || md.action_settings.isSome

/-- One button's state in `deck_api.state[deck_id]['buttons'][page][index]`:
the text/icon/command managed by the streamdeck-ui setters plus the
bridge's `material_deck` overlay.  `text` is a `JVal` because
`_handle_set_tile` stores the raw JSON `title` value. -/
structure ButtonInfo where
  text : JVal
  icon : String
  command : String
  material_deck : Option MDInfo
deriving Repr

/-- A button slot absent from the state dict: default text/icon/command,
no `material_deck` entry. -/
def defaultButton : ButtonInfo :=
  { text := .jstr "", icon := "", command := "", material_deck := none }

/-- The deck state: a total map (page, button index) ↦ button record
(slots absent from the underlying dicts map to `defaultButton`), plus
the current page (`deck_api.get_page`). -/
structure DeckState where
  buttons : Int → Int → ButtonInfo
  page : Int

def set_button_info (d : DeckState) (page idx : Int) (info : ButtonInfo) : DeckState :=
  { d with buttons := fun p b => if p = page ∧ b = idx then info else d.buttons p b }

/-- `deck_api.get_button_text` -/
def get_button_text (d : DeckState) (page idx : Int) : JVal :=
  (d.buttons page idx).text

/-- `deck_api.set_button_text` -/
def set_button_text (d : DeckState) (page idx : Int) (t : JVal) : DeckState :=
  set_button_info d page idx { d.buttons page idx with text := t }

/-- `deck_api.get_button_icon` -/
def get_button_icon (d : DeckState) (page idx : Int) : String :=
  (d.buttons page idx).icon

/-- `deck_api.set_button_icon` -/
def set_button_icon (d : DeckState) (page idx : Int) (i : String) : DeckState :=
  set_button_info d page idx { d.buttons page idx with icon := i }

/-- `deck_api.set_button_command` -/
def set_button_command (d : DeckState) (page idx : Int) (c : String) : DeckState :=
  set_button_info d page idx { d.buttons page idx with command := c }

/-- The bridge module's global state: the deck collaborator state, the
outbound `_output_queue` (modelled as the list of queued messages, FIFO),
the image-cache directory contents, the `_initialized` flag and the
`_deck_id` / `_bridge_file` globals set by `init`. -/
structure BridgeState where
  deck : DeckState
  queue : List String
  fs : FS
  initialized : Bool
  deck_id : String
  bridge_file : String

/-- `_write_message` -/
def write_message (m : String) (st : BridgeState) : BridgeState :=
  { st with queue := st.queue ++ [m] }

/-- The `_init_required(default_value)` decorator: run the wrapped body
only when `_initialized` is set, otherwise return the default and leave
every piece of state untouched. -/
def init_required {α : Type} (default : α) (body : BridgeState → α × BridgeState)
    (st : BridgeState) : α × BridgeState :=
  if st.initialized then body st else (default, st)

/-! ## Settings resolution and payload builders (bridge.py 295-343) -/

/-- `_get_settings_for_action(action, button_index, page)`: reads the
button's `material_deck.action_settings`, creating both dicts when
absent (`setdefault`), and writes the soundboard/macro defaults into the
stored dict when — and only when — it is empty (`if not action_settings:`).
Returns the (aliased, possibly just-mutated) settings dict and the
updated deck state. -/
def get_settings_for_action (action : String) (button_index page : Int) (d : DeckState) :
    List (String × JVal) × DeckState :=
  let info := d.buttons page button_index
  let md := info.material_deck.getD { init_data := none, action_settings := none }
  let settings := md.action_settings.getD []
  let settings :=
    if settings.isEmpty then
      let settings :=
        if action = "soundboard" then
          dictSet settings "soundNr" (.jnum (to_context (button_index + 1) page))
        else settings
      if action = "macro" then
        dictSet (dictSet settings "macroMode" (.jstr "macroBoard"))
          "macroNumber" (.jnum (to_context (button_index + 1) page))
      else settings
    else settings
  let d' := set_button_info d page button_index
    { info with material_deck := some { md with action_settings := some settings } }
  (settings, d')

/-- The grid coordinates dict `{'column': b % 8, 'row': floor(b / 8)}`
(Python `%` is `Int.emod`, `math.floor(b / 8)` is `Int.fdiv`). -/
def coordinates (button_index : Int) : JVal :=
  .jobj [("column", .jnum (Int.emod button_index DECK_COLUMNS)),
         ("row", .jnum (Int.fdiv button_index DECK_COLUMNS))]

/-- `_create_will_display_payload(deck_info, button_index, page, event)`:
deep-copies the stored `init_data`, stamps context/size/event/coordinates,
merges the settings resolved by `_get_settings_for_action` (whose
`setdefault`/default side effects hit the stored state) into the payload
settings, and adds deviceIteration/device.  Raises `KeyError` when the
stored `material_deck` has no `init_data` (or the `init_data` no
`action`), exactly as the Python subscripts do. -/
def create_will_display_payload (button_index page : Int) (event : String)
    (st : BridgeState) : Except PyErr JVal × BridgeState :=
  let info := st.deck.buttons page button_index
  let md := info.material_deck.getD { init_data := none, action_settings := none }
  match md.init_data with
  | none => (.error (.keyError "init_data"), st)
  | some idata =>
    match idata.action with
    | none => (.error (.keyError "action"), st)
    | some action =>
      let (action_settings, d') := get_settings_for_action action button_index page st.deck
      let settings := action_settings.foldl (fun s e => dictSet s e.1 e.2) idata.payload_settings
      let payload : JVal :=
        .jobj [("settings", .jobj settings), ("coordinates", coordinates button_index)]
      let msg : JVal :=
        .jobj [("event", .jstr event),
               ("payload", payload),
               ("context", .jnum (to_context button_index page)),
               ("size", .jobj [("columns", .jnum DECK_COLUMNS), ("rows", .jnum DECK_ROWS)]),
               ("action", .jstr action),
               ("deviceIteration", .jnum page),
               ("device", .jstr st.deck_id)]
      (.ok msg, { st with deck := d' })

/-- `_create_command_payload(action, event, button_index, page)` — note
that building the payload resolves the settings and therefore carries
the `_get_settings_for_action` side effects on the stored state. -/
def create_command_payload (action event : String) (button_index page : Int)
    (st : BridgeState) : JVal × BridgeState :=
  let (settings, d') := get_settings_for_action action button_index page st.deck
  let msg : JVal :=
    .jobj [("action", .jstr action),
           ("event", .jstr event),
           ("context", .jnum (to_context button_index page)),
           ("payload", .jobj [("coordinates", coordinates button_index),
                              ("settings", .jobj settings),
                              ("deviceIteration", .jnum page),
                              ("device", .jstr st.deck_id)])]
  (msg, { st with deck := d' })

/-- `_reset_button(button_index, image_path, page)`: clear text and
command, set the icon.  Leaves the `material_deck` entry untouched. -/
def reset_button (d : DeckState) (button_index : Int) (image_path : String) (page : Int) :
    DeckState :=
  set_button_icon
    (set_button_command (set_button_text d page button_index (.jstr "")) page button_index "")
    page button_index image_path

/-- `disconnect()`: walk every button entry of every page and reset the
bound ones (those with a `material_deck` key) to the Material Foundry
placeholder.  The pointwise map is the loop over the state dicts: slots
absent from the dicts have no `material_deck` entry and are untouched
either way.  Bindings themselves are left intact. -/
def disconnect (st : BridgeState) : BridgeState :=
  { st with deck := { st.deck with buttons := fun p b =>
      let info := st.deck.buttons p b
      if info.material_deck.isSome then
        { info with text := .jstr "", command := "", icon := MATERIAL_FOUNDRY_IMAGE }
      else info } }

/-! ## Material Deck message handlers (bridge.py 357-390) -/

/-- `_handle_set_tile(data)`: read `payload` and `context`, compare the
raw `title` value (Python `payload.get('title')`, `None` when absent)
against the stored button text, and update the text only when they
differ.  Errors before any mutation, as the Python subscripts do. -/
def handle_set_tile (data : List (String × JVal)) (d : DeckState) : Except PyErr DeckState :=
  match objIndex data "payload" with
  | .error e => .error e
  | .ok payloadV =>
    match payloadV with
    | .jobj payload =>
      let title := dget payload "title"
      match objIndex data "context" with
      | .error e => .error e
      | .ok ctxV =>
        match asInt ctxV with
        | .error e => .error e
        | .ok ctx =>
          let page := to_page ctx
          if jvalBeq title (get_button_text d page (to_button_index ctx page)) then .ok d
          else .ok (set_button_text d page (to_button_index ctx page) title)
    | _ => .error .typeError

/-- `_get_path_from_image_id(image_id)` -/
def get_path_from_image_id (image_id : String) : String :=
  IMAGE_CACHE_PATH ++ "/" ++ image_id

/-- `_handle_set_buffer_image(data)`: set the icon to the deterministic
cache path only when it differs from the current icon and the cached
file already exists; never fetches. -/
def handle_set_buffer_image (data : List (String × JVal)) (d : DeckState) (fs : FS) :
    Except PyErr DeckState :=
  match objIndex data "payload" with
  | .error e => .error e
  | .ok payloadV =>
    match jIndex payloadV "id" with
    | .error e => .error e
    | .ok idV =>
      let cache_path := get_path_from_image_id (pyFStr idV)
      match objIndex data "context" with
      | .error e => .error e
      | .ok ctxV =>
        match asInt ctxV with
        | .error e => .error e
        | .ok ctx =>
          let page := to_page ctx
          if ¬ cache_path = get_button_icon d page (to_button_index ctx page)
              ∧ fsExists fs cache_path then
            .ok (set_button_icon d page (to_button_index ctx page) cache_path)
          else .ok d

/-- `_handle_set_image(data)`: when the current icon differs from the
cache path and the file is not cached, fetch `payload['image']` with
`urlopen` and write the bytes directly to the final cache path (no
temporary name); then set the icon unconditionally.  A `connectFail`
raises before the output file is opened; a `readFail` raises after
`open(cache_path, 'wb')` has created the file, leaving a partial file
visible; any raise skips the final `set_button_icon`. -/
def handle_set_image (fetch : String → FetchResult) (data : List (String × JVal))
    (d : DeckState) (fs : FS) : Option PyErr × DeckState × FS :=
  match objIndex data "payload" with
  | .error e => (some e, d, fs)
  | .ok payloadV =>
    match jIndex payloadV "id" with
    | .error e => (some e, d, fs)
    | .ok idV =>
      let cache_path := get_path_from_image_id (pyFStr idV)
      match objIndex data "context" with
      | .error e => (some e, d, fs)
      | .ok ctxV =>
        match asInt ctxV with
        | .error e => (some e, d, fs)
        | .ok ctx =>
          let page := to_page ctx
          let idx := to_button_index ctx page
          if ¬ cache_path = get_button_icon d page idx ∧ ¬ fsExists fs cache_path = true then
            match jIndex payloadV "image" with
            | .error e => (some e, d, fs)
            | .ok urlV =>
              match asStr urlV with
              | .error e => (some e, d, fs)
              | .ok url =>
                match fetch url with
                | .connectFail => (some .urlError, d, fs)
                | .readFail => (some .urlError, d, fsPut fs cache_path .partialFile)
                | .ok bytes =>
                  (none, set_button_icon d page idx cache_path,
                   fsPut fs cache_path (.fullFile bytes))
          else (none, set_button_icon d page idx cache_path, fs)

/-- `analyze_md_message(message)` for a message that decoded to a JSON
object `data` (`json.loads`): the dispatch of bridge.py lines 80-103.
`fetch` is the environment's answer to `urlopen` for each URL.  Returns
the reply (`.ok`) or the escaping exception (`.error`), and the
resulting bridge state (partial mutations from a failing handler
included). -/
def analyze_md_message (fetch : String → FetchResult) (data : List (String × JVal))
    (st : BridgeState) : Except PyErr String × BridgeState :=
  if jvalBeq (dget data "target") (.jstr "server") then
    (.ok CONNECTED_PAYLOAD, st)
  else if jvalBeq (dget data "target") (.jstr "SD") then
    if jvalBeq (dget data "type") (.jstr "init") then
      (.ok INITIALIZE_PAYLOAD, st)
    else if jvalBeq (dget data "event") (.jstr "setTitle") then
      match handle_set_tile data st.deck with
      | .error e => (.error e, st)
      | .ok d' => (.ok "", { st with deck := d' })
    else if jvalBeq (dget data "event") (.jstr "setImage") then
      match handle_set_image fetch data st.deck st.fs with
      | (some e, d', fs') => (.error e, { st with deck := d', fs := fs' })
      | (none, d', fs') => (.ok "", { st with deck := d', fs := fs' })
    else if jvalBeq (dget data "event") (.jstr "setBufferImage") then
      match handle_set_buffer_image data st.deck st.fs with
      | .error e => (.error e, st)
      | .ok d' => (.ok "", { st with deck := d' })
    else
      (.ok "", st)
  else
    (.ok "", st)

/-! ## UI-facing operations guarded by `_init_required` (bridge.py 116-231) -/

/-- Body of `key_up_callback(deck_id, key, state)`: when the current
page's button has a truthy `material_deck` dict, build the `keyUp`
command payload (with its settings-resolution side effects) and enqueue
it.  The `state` flag is only logged.  The `deck_id` argument is the
single configured deck. -/
def key_up_callback_body (key : Int) (st : BridgeState) : Option PyErr × BridgeState :=
  let page := st.deck.page
  let info := st.deck.buttons page key
  match info.material_deck with
  | none => (none, st)
  | some md =>
    if md.truthy then
      match md.init_data with
      | none => (some (.keyError "init_data"), st)
      | some idata =>
        match idata.action with
        | none => (some (.keyError "action"), st)
        | some action =>
          let (payload, st') := create_command_payload action "keyUp" key page st
          (none, write_message (jsonDumps payload) st')
    else (none, st)

/-- `key_up_callback`, with its `@_init_required()` guard. -/
def key_up_callback (key : Int) (st : BridgeState) : Option PyErr × BridgeState :=
  init_required none (key_up_callback_body key) st

/-- Body of `md_data_changed(button_index, text)`.  `parsed` is the
outcome of `json.loads(text)` restricted to object-shaped settings text
(the only shape the settings box carries): `none` models a parse error,
swallowed by the `try`/`except` with an early return. -/
def md_data_changed_body (button_index : Int) (parsed : Option (List (String × JVal)))
    (st : BridgeState) : Option PyErr × BridgeState :=
  match parsed with
  | none => (none, st)
  | some settings =>
    let page := st.deck.page
    let info := st.deck.buttons page button_index
    let md := info.material_deck.getD { init_data := none, action_settings := none }
    let st' := { st with deck := (set_button_info st.deck page button_index
      { info with material_deck := some { md with action_settings := some settings } }) }
    match create_will_display_payload button_index page "willAppear" st' with
    | (.error e, st'') => (some e, st'')
    | (.ok payload, st'') => (none, write_message (jsonDumps payload) st'')

/-- `md_data_changed`, with its `@_init_required()` guard. -/
def md_data_changed (button_index : Int) (parsed : Option (List (String × JVal)))
    (st : BridgeState) : Option PyErr × BridgeState :=
  init_required none (md_data_changed_body button_index parsed) st

/-- The default `init_data` seeded by `md_action_changed`'s `setdefault`. -/
def default_init_data : InitData :=
  { event := "willAppear",
    payload_settings := [("displayName", .jbool true), ("displayIcon", .jbool true)],
    action := none }

/-- The shell command `set_button_command` wires to the button:
`"{CONFIG_PATH}/pipe_writer.sh '{_bridge_file}' '{json.dumps(command)}'"`. -/
def pipe_command (bridge_file : String) (command : JVal) : String :=
  "~/.stream-deck-ui-md-bridge/pipe_writer.sh '" ++ bridge_file ++ "' '"
    ++ jsonDumps command ++ "'"

/-- Body of `md_action_changed(button_index, action)`: a non-empty
action (re)seeds `init_data`, stamps the action, rewires the physical
button command to the trampoline and enqueues `willAppear`; an empty
action deletes the `material_deck` entry (when present), resets the
button with an empty icon, and enqueues the synthetic `willDisappear`
message.  `export_config` and the UI redraw are external effects. -/
def md_action_changed_body (button_index : Int) (action : String)
    (st : BridgeState) : Option PyErr × BridgeState :=
  let page := st.deck.page
  let info := st.deck.buttons page button_index
  if ¬ action = "" then
    let md := info.material_deck.getD { init_data := none, action_settings := none }
    let idata := md.init_data.getD default_init_data
    let idata' := { idata with action := some action }
    let st' := { st with deck := (set_button_info st.deck page button_index
      { info with material_deck := some { md with init_data := some idata' } }) }
    let (command, st'') := create_command_payload action "keyDown" button_index page st'
    let st'' := { st'' with
      deck := set_button_command st''.deck page button_index
        (pipe_command st''.bridge_file command) }
    match create_will_display_payload button_index page "willAppear" st'' with
    | (.error e, stE) => (some e, stE)
    | (.ok payload, stOk) => (none, write_message (jsonDumps payload) stOk)
  else
    match info.material_deck with
    | none => (none, st)
    | some md =>
      let previous_action :=
        match md.init_data with
        | none => ""
        | some idata => idata.action.getD ""
      let st' := { st with deck := (set_button_info st.deck page button_index
        { info with material_deck := none }) }
      let st' := { st' with deck := reset_button st'.deck button_index "" page }
      let msg : JVal :=
        .jobj [("event", .jstr "willDisappear"),
               ("action", .jstr previous_action),
               ("payload", .jobj [("coordinates", coordinates button_index)]),
               ("context", .jnum (to_context button_index page)),
               ("device", .jstr st'.deck_id)]
      (none, write_message (jsonDumps msg) st')

/-- `md_action_changed`, with its `@_init_required()` guard. -/
def md_action_changed (button_index : Int) (action : String)
    (st : BridgeState) : Option PyErr × BridgeState :=
  init_required none (md_action_changed_body button_index action) st

/-- Body of `get_md_action(button_index)`: the pure
`.get('material_deck', {}).get('init_data', {}).get('action', '')` chain. -/
def get_md_action_body (button_index : Int) (st : BridgeState) : String × BridgeState :=
  let info := st.deck.buttons st.deck.page button_index
  match info.material_deck with
  | none => ("", st)
  | some md =>
    match md.init_data with
    | none => ("", st)
    | some idata => (idata.action.getD "", st)

/-- `get_md_action`, with its `@_init_required(default_value='')` guard. -/
def get_md_action (button_index : Int) (st : BridgeState) : String × BridgeState :=
  init_required "" (get_md_action_body button_index) st

/-- Body of `get_md_data(button_index)`: the `setdefault` chain creates
the `material_deck` dict and the `action_settings` dict when absent —
the read mutates the stored state — and the JSON dump of the (possibly
just-created, empty) settings dict is returned. -/
def get_md_data_body (button_index : Int) (st : BridgeState) : String × BridgeState :=
  let page := st.deck.page
  let info := st.deck.buttons page button_index
  let md := info.material_deck.getD { init_data := none, action_settings := none }
  let settings := md.action_settings.getD []
  let st' := { st with deck := (set_button_info st.deck page button_index
    { info with material_deck := some { md with action_settings := some settings } }) }
  (jsonDumps (.jobj settings), st')

/-- `get_md_data`, with its `@_init_required(default_value='')` guard. -/
def get_md_data (button_index : Int) (st : BridgeState) : String × BridgeState :=
  init_required "" (get_md_data_body button_index) st

/-! ## Device-event listener (deck_listener.py 27-39) -/

/-- Python's `str.strip()` whitespace predicate (the characters relevant
to the listener's line payloads). -/
def isPySpace (c : Char) : Bool :=
  c = ' ' ∨ c = '\t' ∨ c = '\n' ∨ c = '\r' ∨ c = '\x0b' ∨ c = '\x0c'

/-- Python `str.strip()`: drop leading and trailing whitespace; interior
characters — newlines included — are untouched. -/
def pyStrip (s : String) : String :=
  String.mk (((s.data.dropWhile isPySpace).reverse.dropWhile isPySpace).reverse)

/-- `_parse_piped_line(line)` -/
def parse_piped_line (line : String) : String := line

/-- One successful-read iteration of `deck_listener.start`'s loop
(lines 29-36): decode the buffer, `strip()` it as a whole, and enqueue
the parsed line when non-empty.  `buf` is the decoded text of the bytes
this read returned; `queue` is the outbound queue. -/
def process_read (buf : String) (queue : List String) : List String :=
  let line := pyStrip buf
  let parsed_line := parse_piped_line line
  if ¬ parsed_line = "" then queue ++ [parsed_line] else queue

/-! ## Concrete states used by witnesses and counterexamples -/

/-- An `init_data` dict as `md_action_changed` seeds it for the
`soundboard` action. -/
def idata_soundboard : InitData where
  event := "willAppear"
  payload_settings := [("displayName", .jbool true), ("displayIcon", .jbool true)]
  action := some "soundboard"

/-- A `material_deck` entry bound to `soundboard` with non-empty
explicit settings. -/
def md_soundboard : MDInfo where
  init_data := some idata_soundboard
  action_settings := some [("vol", .jnum 5)]

/-- A button bound to the soundboard action. -/
def soundboardButton : ButtonInfo where
  text := .jstr ""
  icon := ""
  command := ""
  material_deck := some md_soundboard

/-- An initialized bridge with one bound button at page 0, index 0. -/
def exampleState : BridgeState where
  deck := { buttons := fun p b => if p = 0 ∧ b = 0 then soundboardButton else defaultButton,
            page := 0 }
  queue := []
  fs := []
  initialized := true
  deck_id := "deckA"
  bridge_file := "/tmp/bridge-pipe"

/-- The same bridge before `init` has completed. -/
def uninitState : BridgeState :=
  { exampleState with initialized := false }

/-! ## Helper lemmas -/

/-- `jvalBeq` against a string literal is plain equality (the shallow
special case of `jvalBeq` soundness the dispatch proofs need). -/
theorem jvalBeq_jstr_iff (x : JVal) (s : String) :
    jvalBeq x (.jstr s) = true ↔ x = .jstr s := by
  cases x <;> simp [jvalBeq]

/-! ## Claims -/

/-- C2: for every valid page `p ≥ 0` and button index
`b ∈ [0, rows*columns)`, the coordinate translator round-trips:
`toButtonIndex(toContext(b, p), p) = b` and `toPage(toContext(b, p)) = p`. -/
theorem C2_coordinate_roundtrip (b p : Int) (hb0 : 0 ≤ b)
    (hb : b < DECK_ROWS * DECK_COLUMNS) (hp : 0 ≤ p) :
    to_button_index (to_context b p) p = b ∧ to_page (to_context b p) = p := by
  unfold to_button_index to_context to_page DECK_ROWS DECK_COLUMNS at *
  refine ⟨by ring, ?_⟩
  rw [Int.tdiv_eq_ediv (by omega) (by omega)]
  omega

/-- Witness for C2 at button index 3, page 2 (context 67). -/
theorem C2_witness :
    to_button_index (to_context 3 2) 2 = 3 ∧ to_page (to_context 3 2) = 2 :=
  C2_coordinate_roundtrip 3 2 (by decide) (by decide) (by decide)

/-- C4 counterexample: a single read whose buffer holds the two
newline-separated lines `"a"` and `"b"` is NOT split into the two
messages `["a", "b"]`; the listener enqueues the single message
`"a\nb"`. -/
theorem C4_counterexample :
    process_read "a\nb" [] = ["a\nb"] ∧ ¬ process_read "a\nb" [] = ["a", "b"] := by
  constructor <;> decide

/-- C4 amended: each successful read is handled as one unit — the whole
decoded buffer is stripped of surrounding whitespace and, when the
result is non-empty, enqueued as exactly ONE message; an empty stripped
buffer enqueues nothing.  Multi-line buffers are never split on
newline. -/
theorem C4_single_message_per_read (buf : String) (q : List String) :
    (pyStrip buf = "" → process_read buf q = q)
      ∧ (¬ pyStrip buf = "" → process_read buf q = q ++ [pyStrip buf]) := by
  constructor <;> intro h <;> simp [process_read, parse_piped_line, h]

/-- Witness for C4 amended: the two-line buffer `"a\nb"` enqueues the
single message `"a\nb"`. -/
theorem C4_witness : process_read "a\nb" ["m0"] = ["m0"] ++ [pyStrip "a\nb"] :=
  (C4_single_message_per_read "a\nb" ["m0"]).2 (by decide)

/-- C10: before initialization (`_initialized` unset), every operation
guarded by `_init_required` is a no-op on the bridge state and the
outbound queue: `key_up_callback`, `md_data_changed` and
`md_action_changed` return `None` (and raise nothing), and
`get_md_action` / `get_md_data` return the empty string, all leaving
the state — queue included — unchanged. -/
theorem C10_init_guard (st : BridgeState) (h : st.initialized = false)
    (k b : Int) (parsed : Option (List (String × JVal))) (a : String) :
    key_up_callback k st = (none, st)
      ∧ md_data_changed b parsed st = (none, st)
      ∧ md_action_changed b a st = (none, st)
      ∧ get_md_action b st = ("", st)
      ∧ get_md_data b st = ("", st) := by
  refine ⟨?_, ?_, ?_, ?_, ?_⟩ <;>
    simp [key_up_callback, md_data_changed, md_action_changed, get_md_action,
      get_md_data, init_required, h]

/-- Witness for C10 on a concrete uninitialized state. -/
theorem C10_witness :
    key_up_callback 0 uninitState = (none, uninitState)
      ∧ md_data_changed 0 (some []) uninitState = (none, uninitState)
      ∧ md_action_changed 0 "macro" uninitState = (none, uninitState)
      ∧ get_md_action 0 uninitState = ("", uninitState)
      ∧ get_md_data 0 uninitState = ("", uninitState) :=
  C10_init_guard uninitState rfl 0 0 (some []) "macro"

/-- C9: reading a button's Material Deck data is not read-only.  After
`get_md_data` (initialized), the addressed slot always holds a
`material_deck` entry with an `action_settings` dict, both created
empty when absent, and the returned string is the JSON dump of that
(possibly just-created empty) `action_settings` dict; a settings
resolution through `_get_settings_for_action` likewise inserts both
entries as a side effect, the resolved settings being stored (empty
when the action has no defaults). -/
theorem C9_read_mutates (st : BridgeState) (h : st.initialized = true) (b : Int) :
    (∃ md s, ((get_md_data b st).2.deck.buttons st.deck.page b).material_deck = some md
        ∧ md.action_settings = some s
        ∧ (get_md_data b st).1 = jsonDumps (.jobj s))
      ∧ ((st.deck.buttons st.deck.page b).material_deck = none →
          ((get_md_data b st).2.deck.buttons st.deck.page b).material_deck
              = some { init_data := none, action_settings := some [] }
            ∧ (get_md_data b st).1 = jsonDumps (.jobj []))
      ∧ (∀ a p, ∃ md,
          ((get_settings_for_action a b p st.deck).2.buttons p b).material_deck = some md
            ∧ md.action_settings = some (get_settings_for_action a b p st.deck).1)
      ∧ (∀ a p, ¬ a = "soundboard" → ¬ a = "macro" →
          (st.deck.buttons p b).material_deck = none →
          (get_settings_for_action a b p st.deck).1 = []) := by
  refine ⟨?_, ?_, ?_, ?_⟩
  · simp [get_md_data, init_required, h, get_md_data_body, set_button_info]
  · intro hmd
    simp [get_md_data, init_required, h, get_md_data_body, hmd, set_button_info]
  · intro a p
    simp [get_settings_for_action, set_button_info]
  · intro a p ha hm hmd
    simp [get_settings_for_action, hmd, ha, hm]

/-- Witness for C9 at the unbound slot 5 of the example state. -/
theorem C9_witness :
    (∃ md s, ((get_md_data 5 exampleState).2.deck.buttons exampleState.deck.page 5).material_deck
          = some md
        ∧ md.action_settings = some s
        ∧ (get_md_data 5 exampleState).1 = jsonDumps (.jobj s))
      ∧ ((get_md_data 5 exampleState).2.deck.buttons exampleState.deck.page 5).material_deck
          = some { init_data := none, action_settings := some [] }
      ∧ (∃ md,
          ((get_settings_for_action "token" 5 2 exampleState.deck).2.buttons 2 5).material_deck
              = some md
            ∧ md.action_settings = some (get_settings_for_action "token" 5 2 exampleState.deck).1)
      ∧ (get_settings_for_action "token" 5 2 exampleState.deck).1 = [] :=
  let h := C9_read_mutates exampleState rfl 5
  ⟨h.1, (h.2.1 rfl).1, h.2.2.1 "token" 2,
    h.2.2.2 "token" 2 (by decide) (by decide) rfl⟩

/-- C1 counterexample: bind button 0 of page 0 to `soundboard`, record
the explicit empty-object override via the settings-changed operation
(`md_data_changed` with text `"{}"`, i.e. a parse result of the empty
object), then resolve settings for `soundboard`: the `soundNr` default
IS reintroduced (`soundNr = toContext(1, 0) = 1`), because
`_get_settings_for_action` tests only emptiness (`if not
action_settings:`) and cannot distinguish an explicit empty override
from absent settings. -/
theorem C1_counterexample :
    dictLookup
      (get_settings_for_action "soundboard" 0 0
        ((md_data_changed 0 (some []) exampleState).2.deck)).1
      "soundNr" = some (.jnum 1) := by
  rfl

/-- C1 amended: defaults are withheld only while the recorded
`action_settings` dict is non-empty — then resolution returns the
stored settings unchanged.  Whenever the stored dict is empty,
including after an explicit empty-object override, the
`soundboard`/`macro` defaults are (re)applied. -/
theorem C1_defaults_reapplied_on_empty (d : DeckState) (a : String) (b p : Int)
    (md : MDInfo) (hmd : (d.buttons p b).material_deck = some md) :
    (∀ s, md.action_settings = some s → ¬ s = [] →
        (get_settings_for_action a b p d).1 = s)
      ∧ (md.action_settings = some [] →
          dictLookup (get_settings_for_action "soundboard" b p d).1 "soundNr"
              = some (.jnum (to_context (b + 1) p))
            ∧ dictLookup (get_settings_for_action "macro" b p d).1 "macroNumber"
              = some (.jnum (to_context (b + 1) p))
            ∧ dictLookup (get_settings_for_action "macro" b p d).1 "macroMode"
              = some (.jstr "macroBoard")) := by
  constructor
  · intro s hs hne
    simp [get_settings_for_action, hmd, hs, List.isEmpty_iff, hne]
  · intro hs
    refine ⟨?_, ?_, ?_⟩ <;>
      simp [get_settings_for_action, hmd, hs, dictSet, dictLookup]

/-- A soundboard binding carrying the explicit empty-object settings
override. -/
def md_soundboard_empty : MDInfo where
  init_data := some idata_soundboard
  action_settings := some []

/-- Button (0, 0) after the explicit `"{}"` settings override. -/
def emptyOverrideButton : ButtonInfo :=
  { soundboardButton with material_deck := some md_soundboard_empty }

/-- The example state after the explicit `"{}"` settings override on
button (0, 0). -/
def emptyOverrideState : BridgeState :=
  { exampleState with deck :=
      { buttons := fun p b => if p = 0 ∧ b = 0 then emptyOverrideButton else defaultButton,
        page := 0 } }

/-- Witness for C1 amended: with the non-empty explicit settings of the
example state, resolution returns them unchanged; after an explicit
empty override the soundboard default comes back. -/
theorem C1_witness :
    (get_settings_for_action "soundboard" 0 0 exampleState.deck).1 = [("vol", .jnum 5)]
      ∧ dictLookup (get_settings_for_action "soundboard" 0 0 emptyOverrideState.deck).1 "soundNr"
          = some (.jnum (to_context (0 + 1) 0)) :=
  ⟨(C1_defaults_reapplied_on_empty exampleState.deck "soundboard" 0 0 md_soundboard rfl).1
      [("vol", .jnum 5)] rfl (by simp),
    ((C1_defaults_reapplied_on_empty emptyOverrideState.deck "soundboard" 0 0
        md_soundboard_empty rfl).2 rfl).1⟩

/-- C8: `disconnect` resets the physical icon of every bound button
(those with a `material_deck` entry, on every page) to the Material
Foundry placeholder while leaving the stored binding — the
`material_deck` entry with its action and settings — intact; buttons
with no binding are left completely unmodified.  By contrast, assigning
an empty action through `md_action_changed` deletes the binding. -/
theorem C8_disconnect (st : BridgeState) :
    (∀ p b, ((disconnect st).deck.buttons p b).material_deck
        = (st.deck.buttons p b).material_deck)
      ∧ (∀ p b, (st.deck.buttons p b).material_deck.isSome = true →
          ((disconnect st).deck.buttons p b).icon = MATERIAL_FOUNDRY_IMAGE)
      ∧ (∀ p b, (st.deck.buttons p b).material_deck = none →
          (disconnect st).deck.buttons p b = st.deck.buttons p b)
      ∧ (∀ b, st.initialized = true →
          (st.deck.buttons st.deck.page b).material_deck.isSome = true →
          ((md_action_changed b "" st).2.deck.buttons st.deck.page b).material_deck = none) := by
  refine ⟨?_, ?_, ?_, ?_⟩
  · intro p b
    by_cases h : (st.deck.buttons p b).material_deck.isSome <;>
      simp [disconnect, h]
  · intro p b h
    simp [disconnect, h]
  · intro p b h
    simp [disconnect, h]
  · intro b hinit h
    obtain ⟨md, hmd⟩ := Option.isSome_iff_exists.mp h
    simp [md_action_changed, init_required, hinit, md_action_changed_body, hmd,
      reset_button, set_button_text, set_button_command, set_button_icon,
      set_button_info, write_message]

/-- Witness for C8: button (0, 0) of the example state is bound, keeps
its binding but gets the placeholder icon on `disconnect`; the unbound
button (1, 7) is untouched; and an empty action assignment destroys the
binding at (0, 0). -/
theorem C8_witness :
    ((disconnect exampleState).deck.buttons 0 0).material_deck
        = (exampleState.deck.buttons 0 0).material_deck
      ∧ ((disconnect exampleState).deck.buttons 0 0).icon = MATERIAL_FOUNDRY_IMAGE
      ∧ (disconnect exampleState).deck.buttons 1 7 = exampleState.deck.buttons 1 7
      ∧ ((md_action_changed 0 "" exampleState).2.deck.buttons
          exampleState.deck.page 0).material_deck = none :=
  let h := C8_disconnect exampleState
  ⟨h.1 0 0, h.2.1 0 0 rfl, h.2.2.1 1 7 rfl, h.2.2.2 0 rfl rfl⟩

/-- The reply strings are pairwise distinct and non-empty. -/
theorem empty_ne_connected : ¬ "" = CONNECTED_PAYLOAD := by decide

theorem empty_ne_initialize : ¬ "" = INITIALIZE_PAYLOAD := by decide

theorem connected_ne_initialize : ¬ CONNECTED_PAYLOAD = INITIALIZE_PAYLOAD := by decide

theorem initialize_ne_connected : ¬ INITIALIZE_PAYLOAD = CONNECTED_PAYLOAD := by decide

/-- C6: over well-formed inbound JSON objects, `analyze_md_message`
returns the fixed connected-handshake payload exactly when
`target == "server"`, the fixed version/init payload exactly when
`target == "SD"` and `type == "init"`, and for any other event name
under `target == "SD"` an empty reply with the bridge state (bindings,
queue, cache) unchanged. -/
theorem C6_dispatch (fetch : String → FetchResult) (data : List (String × JVal))
    (st : BridgeState) :
    ((analyze_md_message fetch data st).1 = .ok CONNECTED_PAYLOAD ↔
        dget data "target" = .jstr "server")
      ∧ ((analyze_md_message fetch data st).1 = .ok INITIALIZE_PAYLOAD ↔
          (dget data "target" = .jstr "SD" ∧ dget data "type" = .jstr "init"))
      ∧ (dget data "target" = .jstr "SD" → ¬ dget data "type" = .jstr "init" →
          ¬ dget data "event" = .jstr "setTitle" → ¬ dget data "event" = .jstr "setImage" →
          ¬ dget data "event" = .jstr "setBufferImage" →
          analyze_md_message fetch data st = (.ok "", st)) := by
  by_cases h1 : dget data "target" = .jstr "server"
  · constructor
    · simp [analyze_md_message, jvalBeq_jstr_iff, h1]
    constructor
    · simp [analyze_md_message, jvalBeq_jstr_iff, h1, connected_ne_initialize]
    · intro h2
      rw [h1] at h2
      simp at h2
  · by_cases h2 : dget data "target" = .jstr "SD"
    · by_cases h3 : dget data "type" = .jstr "init"
      · constructor
        · simp [analyze_md_message, jvalBeq_jstr_iff, h1, h2, h3, initialize_ne_connected]
        constructor
        · simp [analyze_md_message, jvalBeq_jstr_iff, h1, h2, h3]
        · intro _ h3'
          exact absurd h3 h3'
      · by_cases h4 : dget data "event" = .jstr "setTitle"
        · rcases hh : handle_set_tile data st.deck with e | d' <;>
            · refine ⟨?_, ?_, ?_⟩
              · simp [analyze_md_message, jvalBeq_jstr_iff, h1, h2, h3, h4, hh,
                  empty_ne_connected]
              · simp [analyze_md_message, jvalBeq_jstr_iff, h1, h2, h3, h4, hh,
                  empty_ne_initialize]
              · intro _ _ h4'
                exact absurd h4 h4'
        · by_cases h5 : dget data "event" = .jstr "setImage"
          · rcases hh : handle_set_image fetch data st.deck st.fs with ⟨oe, d', fs'⟩
            rcases oe with _ | e <;>
              · refine ⟨?_, ?_, ?_⟩
                · simp [analyze_md_message, jvalBeq_jstr_iff, h1, h2, h3, h4, h5, hh,
                    empty_ne_connected]
                · simp [analyze_md_message, jvalBeq_jstr_iff, h1, h2, h3, h4, h5, hh,
                    empty_ne_initialize]
                · intro _ _ _ h5'
                  exact absurd h5 h5'
          · by_cases h6 : dget data "event" = .jstr "setBufferImage"
            · rcases hh : handle_set_buffer_image data st.deck st.fs with e | d' <;>
                · refine ⟨?_, ?_, ?_⟩
                  · simp [analyze_md_message, jvalBeq_jstr_iff, h1, h2, h3, h4, h5, h6, hh,
                      empty_ne_connected]
                  · simp [analyze_md_message, jvalBeq_jstr_iff, h1, h2, h3, h4, h5, h6, hh,
                      empty_ne_initialize]
                  · intro _ _ _ _ h6'
                    exact absurd h6 h6'
            · refine ⟨?_, ?_, ?_⟩
              · simp [analyze_md_message, jvalBeq_jstr_iff, h1, h2, h3, h4, h5, h6,
                  empty_ne_connected]
              · simp [analyze_md_message, jvalBeq_jstr_iff, h1, h2, h3, h4, h5, h6,
                  empty_ne_initialize]
              · intro _ _ _ _ _
                simp [analyze_md_message, jvalBeq_jstr_iff, h1, h2, h3, h4, h5, h6]
    · refine ⟨?_, ?_, ?_⟩
      · simp [analyze_md_message, jvalBeq_jstr_iff, h1, h2, empty_ne_connected]
      · simp [analyze_md_message, jvalBeq_jstr_iff, h1, h2, empty_ne_initialize]
      · intro h2'
        exact absurd h2' h2

/-- Witness for C6: an unrecognized event name under `target == "SD"`
yields the empty reply and leaves the state unchanged. -/
theorem C6_witness :
    analyze_md_message (fun _ => .connectFail)
      [("target", .jstr "SD"), ("event", .jstr "titleParametersDidChange")] exampleState
      = (.ok "", exampleState) :=
  (C6_dispatch (fun _ => .connectFail)
      [("target", .jstr "SD"), ("event", .jstr "titleParametersDidChange")] exampleState).2.2
    rfl (by simp [dget, dictLookup]) (by simp [dget, dictLookup])
    (by simp [dget, dictLookup]) (by simp [dget, dictLookup])

/-- A well-formed `setTitle` event message with context `ctx` and raw
title value `t`. -/
def setTitleMsg (ctx : Int) (t : JVal) : List (String × JVal) :=
  [("target", .jstr "SD"), ("event", .jstr "setTitle"),
   ("context", .jnum ctx), ("payload", .jobj [("title", t)])]

/-- C7: on a `setTitle` message with context `ctx` and title `t`, the
button resolved via `toPage`/`toButtonIndex` has its text set to `t`
when `t` differs from the current text, is left alone when `t` equals
it, and in every case the reply is empty and nothing else of the bridge
state changes. -/
theorem C7_set_title (fetch : String → FetchResult) (st : BridgeState) (ctx : Int) (t : JVal) :
    (jvalBeq t (get_button_text st.deck (to_page ctx) (to_button_index ctx (to_page ctx)))
          = true →
        analyze_md_message fetch (setTitleMsg ctx t) st = (.ok "", st))
      ∧ (jvalBeq t (get_button_text st.deck (to_page ctx) (to_button_index ctx (to_page ctx)))
          = false →
        analyze_md_message fetch (setTitleMsg ctx t) st
          = (.ok "", { st with deck := (set_button_text st.deck (to_page ctx)
              (to_button_index ctx (to_page ctx)) t) })) := by
  constructor <;> intro h <;>
    simp [analyze_md_message, setTitleMsg, handle_set_tile, dget, dictLookup,
      objIndex, asInt, jvalBeq, h]

/-- Witness for C7: `setTitle` with context 3 and title `"Cast"` on the
example state (page 0, current text `""`) updates button index 3 of
page 0 to `"Cast"` with no reply frame. -/
theorem C7_witness :
    analyze_md_message (fun _ => .connectFail) (setTitleMsg 3 (.jstr "Cast")) exampleState
      = (.ok "", { exampleState with deck := (set_button_text exampleState.deck (to_page 3)
          (to_button_index 3 (to_page 3)) (.jstr "Cast")) }) :=
  (C7_set_title (fun _ => .connectFail) exampleState 3 (.jstr "Cast")).2 rfl

/-- A well-formed `setImage` event message with context `ctx`, image id
`imgId` and source URL `url`. -/
def setImageMsg (ctx : Int) (imgId url : String) : List (String × JVal) :=
  [("target", .jstr "SD"), ("event", .jstr "setImage"), ("context", .jnum ctx),
   ("payload", .jobj [("id", .jstr imgId), ("image", .jstr url)])]

/-- C3 counterexample: a `setImage` message whose synchronous fetch
fails makes `analyze_md_message` return the raised exception — the
error DOES escape the message-handling operation instead of being
caught, so the session loop above it is exposed to the failure. -/
theorem C3_counterexample :
    (analyze_md_message (fun _ => .connectFail)
        (setImageMsg 0 "img1" "http://srv/img") exampleState).1
      = .error .urlError := by
  rfl

/-- C3 amended: when the fetch fails while connecting during a
`setImage` event (cache miss, differing icon), the addressed button's
icon — and all bridge state — is left unchanged, but the error
propagates out of `analyze_md_message` as a raised exception rather
than being handled as a dropped `setImage`. -/
theorem C3_fetch_error_escapes (fetch : String → FetchResult) (st : BridgeState)
    (ctx : Int) (imgId url : String) (hf : fetch url = .connectFail)
    (hicon : ¬ get_path_from_image_id imgId
        = get_button_icon st.deck (to_page ctx) (to_button_index ctx (to_page ctx)))
    (hmiss : fsExists st.fs (get_path_from_image_id imgId) = false) :
    analyze_md_message fetch (setImageMsg ctx imgId url) st = (.error .urlError, st) := by
  simp [analyze_md_message, setImageMsg, handle_set_image, dget, dictLookup, objIndex,
    jIndex, asInt, asStr, jvalBeq, pyFStr, hf, hicon, hmiss]

/-- Witness for C3 amended at a concrete failing fetch. -/
theorem C3_witness :
    analyze_md_message (fun _ => .connectFail) (setImageMsg 0 "img1" "http://srv/img")
      exampleState = (.error .urlError, exampleState) :=
  C3_fetch_error_escapes (fun _ => .connectFail) exampleState 0 "img1" "http://srv/img"
    rfl (by decide) rfl

/-- C5 counterexample: after a `setImage` whose transfer fails once the
output file is open, a partial file IS visible at the deterministic
cache path for the image id — the write is not atomic (no temporary
name, no rename). -/
theorem C5_counterexample :
    fsLookup
      (analyze_md_message (fun _ => .readFail)
          (setImageMsg 0 "img1" "http://srv/img") exampleState).2.fs
      (get_path_from_image_id "img1")
      = some .partialFile := by
  rfl

/-- C5 amended: the cache-miss fetch writes the image directly to the
final cache path with no temporary-name-then-rename step.  A failure
before the output file is opened (connection failure) leaves no file,
but a failure during the transfer or write leaves a partial file
visible at the deterministic cache path; only a complete transfer
stores the full content and updates the icon. -/
theorem C5_direct_write (fetch : String → FetchResult) (st : BridgeState)
    (ctx : Int) (imgId url : String)
    (hicon : ¬ get_path_from_image_id imgId
        = get_button_icon st.deck (to_page ctx) (to_button_index ctx (to_page ctx)))
    (hmiss : fsExists st.fs (get_path_from_image_id imgId) = false) :
    (fetch url = .readFail →
        analyze_md_message fetch (setImageMsg ctx imgId url) st
          = (.error .urlError,
             { st with fs := fsPut st.fs (get_path_from_image_id imgId) .partialFile }))
      ∧ (fetch url = .connectFail →
          analyze_md_message fetch (setImageMsg ctx imgId url) st = (.error .urlError, st))
      ∧ (∀ bytes, fetch url = .ok bytes →
          analyze_md_message fetch (setImageMsg ctx imgId url) st
            = (.ok "",
               { st with
                 deck := set_button_icon st.deck (to_page ctx)
                   (to_button_index ctx (to_page ctx)) (get_path_from_image_id imgId),
                 fs := fsPut st.fs (get_path_from_image_id imgId) (.fullFile bytes) })) := by
  refine ⟨?_, ?_, ?_⟩
  · intro hf
    simp [analyze_md_message, setImageMsg, handle_set_image, dget, dictLookup, objIndex,
      jIndex, asInt, asStr, jvalBeq, pyFStr, hf, hicon, hmiss]
  · intro hf
    simp [analyze_md_message, setImageMsg, handle_set_image, dget, dictLookup, objIndex,
      jIndex, asInt, asStr, jvalBeq, pyFStr, hf, hicon, hmiss]
  · intro bytes hf
    simp [analyze_md_message, setImageMsg, handle_set_image, dget, dictLookup, objIndex,
      jIndex, asInt, asStr, jvalBeq, pyFStr, hf, hicon, hmiss]

/-- Witness for C5 amended: the mid-transfer failure leaves the partial
file at the cache path. -/
theorem C5_witness :
    analyze_md_message (fun _ => .readFail) (setImageMsg 0 "img1" "http://srv/img")
      exampleState
      = (.error .urlError,
         { exampleState with
           fs := fsPut exampleState.fs (get_path_from_image_id "img1") .partialFile }) :=
  (C5_direct_write (fun _ => .readFail) exampleState 0 "img1" "http://srv/img"
      (by decide) rfl).1 rfl

end MdBridge
